import Mathlib

set_option maxRecDepth 100000

/-!
Verification of the JamMatch AI compatibility service (`src/ai-service/app.py`)
against its natural-language specification.

Shallow embedding: Python strings are character lists (`PyStr`), request
profiles become a structure of optional fields (a key may be absent from the
JSON dict), Python exceptions (`KeyError` from `user[field]`, `ValueError`
from `list.index`) become `Except PyStr`, and the Flask endpoint
`calculate_compatibility` becomes a pure function of the startup flag
`model_loaded`, an oracle for the text the generation pipeline would produce
(or the error it would raise), and the two profiles.  The Python string
methods used by the source (`strip`, `lower`, `startswith`, `replace`,
`split`, `join`) are given explicit executable models below; inputs in this
development are ASCII, where these agree with Python.
-/

namespace JamMatch

/-- A Python string, as its sequence of characters. -/
abbrev PyStr := List Char

/-- Whitespace in the sense of Python's `str.strip`. -/
def pySpace (c : Char) : Bool :=
  c = ' ' || c = '\t' || c = '\n' || c = '\r' || c = '\x0b' || c = '\x0c'

/-- Python `str.strip()`: remove leading and trailing whitespace. -/
def pyStrip (s : PyStr) : PyStr :=
  ((s.dropWhile pySpace).reverse.dropWhile pySpace).reverse

/-- Lower-case one character (ASCII; Python `str.lower` agrees on ASCII). -/
def lowerChar (c : Char) : Char :=
  if 'A' ≤ c ∧ c ≤ 'Z' then Char.ofNat (c.toNat + 32) else c

/-- Python `str.lower()`. -/
def pyLower (s : PyStr) : PyStr :=
  s.map lowerChar

/-- Python `str.startswith(pre)`. -/
def pyStartsWith (s pre : PyStr) : Bool :=
  pre.isPrefixOf s

/-- The left-to-right non-overlapping scan of Python
`str.replace(pat, '')`: every occurrence of `pat` is deleted.  The fuel
argument only bounds the recursion and never runs out on the non-empty
patterns the source uses. -/
def pyEraseAux (pat : PyStr) : Nat → PyStr → PyStr
  | _, [] => []
  | 0, s => s
  | fuel + 1, c :: rest =>
    if pat.isPrefixOf (c :: rest) then pyEraseAux pat fuel ((c :: rest).drop pat.length)
    else c :: pyEraseAux pat fuel rest

/-- Python `s.replace(pat, '')`. -/
def pyErase (s pat : PyStr) : PyStr :=
  pyEraseAux pat s.length s

/-- Python `str.split(c)` for a one-character separator. -/
def pySplit (c : Char) : PyStr → List PyStr
  | [] => [[]]
  | x :: rest =>
    if x = c then [] :: pySplit c rest
    else
      match pySplit c rest with
      | h :: t => (x :: h) :: t
      | [] => [[x]]

/-- Python `sep.join(xs)`. -/
def pyJoin (sep : PyStr) (xs : List PyStr) : PyStr :=
  List.intercalate sep xs

/-- Decimal rendering of a natural number (Python `f"{score}"`); the fuel of
the helper is the number itself, which always suffices. -/
def natToCharsAux : Nat → Nat → PyStr → PyStr
  | 0, _, acc => acc
  | _ + 1, 0, acc => acc
  | fuel + 1, m, acc => natToCharsAux fuel (m / 10) (Char.ofNat (48 + m % 10) :: acc)

/-- Decimal rendering of a natural number. -/
def natToChars (n : Nat) : PyStr :=
  if n = 0 then ['0'] else natToCharsAux n n []

/-- A CPython `set` of strings, as a canonical list: iteration order of such a
set is a deterministic function of the set's contents (hash-table order),
never of insertion order, and is modelled here as the sorted order without
duplicates. -/
def pySet (l : List PyStr) : List PyStr :=
  List.insertionSort (fun a b => a ≤ b) l.dedup

/-- `set(user1['genres']) & set(user2['genres'])` (app.py line 217), as the
canonical list of the intersection.  Python string equality is
case-sensitive, as here. -/
def commonGenres (g1 g2 : List PyStr) : List PyStr :=
  (pySet g1).filter (fun x => g2.contains x)

/-- A musician profile as received in the request JSON.  Every key may be
absent, which we model with `Option`; the values are used by the code at the
types given here. -/
structure Profile where
  name : Option PyStr
  genres : Option (List PyStr)
  instruments : Option (List PyStr)
  experience : Option PyStr
  location : Option PyStr
  bio : Option PyStr
deriving DecidableEq

/-- `required_fields` of `calculate_compatibility` (app.py line 92). -/
def required_fields : List PyStr :=
  ["name".data, "genres".data, "instruments".data, "experience".data]

/-- Python's `field in user` membership test on a profile dict. -/
def hasField (u : Profile) (f : PyStr) : Bool :=
  if f = "name".data then u.name.isSome
  else if f = "genres".data then u.genres.isSome
  else if f = "instruments".data then u.instruments.isSome
  else if f = "experience".data then u.experience.isSome
  else if f = "location".data then u.location.isSome
  else false

/-- The inner validation loop (app.py lines 94-96): the first field of
`required_fields`, in order, that is missing from `u`. -/
def firstMissingField (u : Profile) : Option PyStr :=
  required_fields.find? (fun f => !(hasField u f))

/-- The outer validation loop (app.py line 93): all of `user1`'s required
fields are checked before any of `user2`'s. -/
def validateUsers (u1 u2 : Profile) : Option PyStr :=
  match firstMissingField u1 with
  | some f => some f
  | none => firstMissingField u2

/-- Python dict subscription `user[f]`: raises `KeyError` when the key is
absent. -/
def getField {α : Type} (x : Option α) (f : PyStr) : Except PyStr α :=
  match x with
  | some v => Except.ok v
  | none => Except.error ("KeyError: ".data ++ f)

/-- `experience_levels` (app.py line 222). -/
def experience_levels : List PyStr :=
  ["beginner".data, "intermediate".data, "advanced".data, "professional".data]

/-- Python `list.index`: position of the first occurrence, raising
`ValueError` when the element is absent. -/
def listIndex (l : List PyStr) (x : PyStr) : Except PyStr Nat :=
  match l.indexOf? x with
  | some i => Except.ok i
  | none => Except.error "ValueError".data

/-- `calculate_basic_compatibility` (app.py lines 212-244), with the Python
exceptions in `Except`; evaluation order of the dict accesses and of
`list.index` follows the source. -/
def calculate_basic_compatibility (user1 user2 : Profile) : Except PyStr Nat := do
  let g1 ← getField user1.genres "genres".data
  let g2 ← getField user2.genres "genres".data
  let genre_score := min ((commonGenres g1 g2).length * 10) 30
  let e1 ← getField user1.experience "experience".data
  let user1_exp ← listIndex experience_levels e1
  let e2 ← getField user2.experience "experience".data
  let user2_exp ← listIndex experience_levels e2
  let exp_diff := ((user1_exp : Int) - (user2_exp : Int)).natAbs
  let exp_score := if exp_diff = 0 then 20 else if exp_diff = 1 then 10 else 5
  let l1 ← getField user1.location "location".data
  let l2 ← getField user2.location "location".data
  let location_score := if pyLower l1 = pyLower l2 then 50 else 10
  pure (min (genre_score + exp_score + location_score) 100)

/-- `generate_basic_reasoning` (app.py lines 246-256). -/
def generate_basic_reasoning (user1 user2 : Profile) (score : Nat) : Except PyStr PyStr := do
  let g1 ← getField user1.genres "genres".data
  let g2 ← getField user2.genres "genres".data
  let common := commonGenres g1 g2
  let n1 ← getField user1.name "name".data
  let n2 ← getField user2.name "name".data
  let e1 ← getField user1.experience "experience".data
  let e2 ← getField user2.experience "experience".data
  let l1 ← getField user1.location "location".data
  let l2 ← getField user2.location "location".data
  pure ("Compatibility analysis for ".data ++ n1 ++ " and ".data ++ n2 ++ ":\n".data ++
    "- Shared musical genres: ".data ++
      (if common ≠ [] then pyJoin ", ".data common else "None".data) ++ "\n".data ++
    "- Experience levels: ".data ++ e1 ++ " and ".data ++ e2 ++ "\n".data ++
    "- Location compatibility: ".data ++
      (if pyLower l1 = pyLower l2 then "Same city".data else "Different locations".data) ++
      "\n".data ++
    "- Overall compatibility score: ".data ++ natToChars score ++ "/100".data)

/-- The default reasoning string of `parse_ai_response` (app.py line 187). -/
def fallbackReasoning : PyStr := "AI analysis completed with fallback parsing.".data

/-- Value of a run of decimal digit characters. -/
def digitsToNat (cs : List Char) : Nat :=
  cs.foldl (fun n c => n * 10 + (c.toNat - 48)) 0

/-- `re.search(r'-?\d+', s)` (app.py line 195): the leftmost optionally-signed
maximal run of digits, as an integer. -/
def findIntToken : PyStr → Option Int
  | [] => none
  | c :: rest =>
    if c.isDigit then
      some (Int.ofNat (digitsToNat ((c :: rest).takeWhile Char.isDigit)))
    else if c = '-' then
      match rest with
      | [] => none
      | d :: _ =>
        if d.isDigit then
          some (-(Int.ofNat (digitsToNat (rest.takeWhile Char.isDigit))))
        else findIntToken rest
    else findIntToken rest

/-- The `SCORE:` branch of the parsing loop (app.py lines 191-197): strip the
line, delete every occurrence of `SCORE:` (Python `str.replace` replaces
all), strip again, scan for the first signed integer, and clamp it to
`[1, 100]`; when no integer is found the running score is kept. -/
def scoreStep (score : Int) (rawLine : PyStr) : Int :=
  let line := pyStrip rawLine
  if pyStartsWith line "SCORE:".data then
    match findIntToken (pyStrip (pyErase line "SCORE:".data)) with
    | some v => min (max v 1) 100
    | none => score
  else score

/-- The line loop of `parse_ai_response` (app.py lines 189-204).  `allLines`
is the full `lines` list, needed because the `REASONING:` branch calls
`lines.index(line)` on the *stripped* line; a `none` result models the
`ValueError` that call raises when the stripped line is not literally an
element of `lines`, which escapes to the function's `except` handler. -/
def parseLoop (allLines : List PyStr) : List PyStr → Int → Option (Int × PyStr)
  | [], score => some (score, fallbackReasoning)
  | rawLine :: rest, score =>
    let line := pyStrip rawLine
    if pyStartsWith line "SCORE:".data then
      parseLoop allLines rest (scoreStep score rawLine)
    else if pyStartsWith line "REASONING:".data then
      let r := pyStrip (pyErase line "REASONING:".data)
      match allLines.indexOf? line with
      | some i =>
        let remaining := allLines.drop (i + 1)
        some (score,
          if remaining ≠ [] then r ++ " ".data ++ pyStrip (pyJoin " ".data remaining) else r)
      | none => none
    else parseLoop allLines rest score

/-- `parse_ai_response` (app.py lines 182-210): split on newlines, run the
loop with running defaults `score = 50` and the fallback reasoning; any
exception inside yields the defaults. -/
def parse_ai_response (response : PyStr) : Int × PyStr :=
  match parseLoop (pySplit '\n' response) (pySplit '\n' response) 50 with
  | some r => r
  | none => (50, fallbackReasoning)

/-- `calculate_ai_compatibility` (app.py lines 128-180).  The generation
pipeline is abstracted as an oracle `aiText` holding either the continuation
text it generates after the echoed prompt, or the error it raises; the code
strips that continuation and hands it to the response parsing, and re-raises
any pipeline error. -/
def calculate_ai_compatibility (aiText : Except PyStr PyStr) : Except PyStr (Int × PyStr) :=
  match aiText with
  | Except.error e => Except.error e
  | Except.ok t => Except.ok (parse_ai_response (pyStrip t))

/-- The JSON body of a successful `/compatibility` response (the `timestamp`
field, which only reports the wall clock, is omitted). -/
structure OkBody where
  compatibility_score : Int
  reasoning : PyStr
  model_used : PyStr
  fallback_used : Bool
deriving DecidableEq

/-- A `/compatibility` response: a 200 body or an HTTP error status with its
`error` message. -/
inductive HttpResponse where
  | ok : OkBody → HttpResponse
  | error : Nat → PyStr → HttpResponse
deriving DecidableEq

/-- The `/compatibility` endpoint `calculate_compatibility` (app.py lines
73-126) after JSON decoding: `model_loaded` is the startup flag (and
`ai_pipeline` is non-`None` exactly when it is `true`), `aiText` the pipeline
oracle.  Validation failure gives a 400; an exception on the fallback path is
caught by the outer handler and gives a 500. -/
def calculate_compatibility (model_loaded : Bool) (aiText : Except PyStr PyStr)
    (user1 user2 : Profile) : HttpResponse :=
  match validateUsers user1 user2 with
  | some f => HttpResponse.error 400 ("Missing required field: ".data ++ f)
  | none =>
    let fallback : HttpResponse :=
      match calculate_basic_compatibility user1 user2 with
      | Except.error _ => HttpResponse.error 500 "Internal server error".data
      | Except.ok score =>
        match generate_basic_reasoning user1 user2 score with
        | Except.error _ => HttpResponse.error 500 "Internal server error".data
        | Except.ok reasoning =>
          HttpResponse.ok ⟨(score : Int), reasoning, "algorithmic_fallback".data, true⟩
    if model_loaded then
      match calculate_ai_compatibility aiText with
      | Except.ok (s, r) => HttpResponse.ok ⟨s, r, "mistral_ai".data, false⟩
      | Except.error _ => fallback
    else fallback

/-- Profiles on which the algorithmic path is defined beyond presence
validation: a recognized experience level and a present location. -/
def algReady (u : Profile) : Bool :=
  (match u.experience with
   | some e => experience_levels.contains e
   | none => false) && u.location.isSome

/-- Equality of `Except` values is decidable componentwise. -/
instance {α β : Type} [DecidableEq α] [DecidableEq β] : DecidableEq (Except α β) :=
  fun a b =>
    match a, b with
    | Except.ok x, Except.ok y =>
      if h : x = y then Decidable.isTrue (by rw [h]) else Decidable.isFalse (by simp [h])
    | Except.error x, Except.error y =>
      if h : x = y then Decidable.isTrue (by rw [h]) else Decidable.isFalse (by simp [h])
    | Except.ok _, Except.error _ => Decidable.isFalse (by simp)
    | Except.error _, Except.ok _ => Decidable.isFalse (by simp)

/-! ## Sample profiles

Concrete profiles used for witnesses and counterexamples; `alice`, `bob` and
`charlie` are the fixtures of the repository's own test suite. -/

/-- Test fixture `user1` of `test_ai_service.py`. -/
def alice : Profile :=
  ⟨some "Alice".data, some ["Rock".data, "Pop".data], some ["Guitar".data, "Vocals".data],
    some "intermediate".data, some "New York".data, some "Love playing rock music".data⟩

/-- Test fixture `user2` of `test_ai_service.py`. -/
def bob : Profile :=
  ⟨some "Bob".data, some ["Rock".data, "Jazz".data], some ["Drums".data],
    some "intermediate".data, some "New York".data, some "Experienced drummer".data⟩

/-- Test fixture `user3` of `test_ai_service.py`. -/
def charlie : Profile :=
  ⟨some "Charlie".data, some ["Classical".data, "Folk".data], some ["Piano".data],
    some "professional".data, some "Los Angeles".data, some "Classical pianist".data⟩

/-- A profile with all four checked fields but no `location`. -/
def dana : Profile :=
  ⟨some "Dana".data, some ["Folk".data], some ["Cello".data], some "advanced".data, none, none⟩

/-- A second location-less profile. -/
def fay : Profile :=
  ⟨some "Fay".data, some ["Pop".data], some ["Bass".data], some "beginner".data, none, none⟩

/-- A profile whose `experience` value is outside the recognized levels. -/
def eve : Profile :=
  ⟨some "Eve".data, some ["Rock".data], some ["Guitar".data], some "expert".data,
    some "Austin".data, none⟩

/-- A profile missing `genres`. -/
def gus : Profile :=
  ⟨some "Gus".data, none, some ["Viola".data], some "beginner".data, some "Austin".data, none⟩

/-- A profile with three distinct genres. -/
def tri : Profile :=
  ⟨some "Tri".data, some ["Rock".data, "Pop".data, "Jazz".data], some ["Guitar".data],
    some "intermediate".data, some "New York".data, none⟩

/-! ## Helper lemmas -/

theorem firstMissingField_eq_none_iff (u : Profile) :
    firstMissingField u = none ↔
      u.name.isSome ∧ u.genres.isSome ∧ u.instruments.isSome ∧ u.experience.isSome := by
  obtain ⟨n, g, i, e, l, b⟩ := u
  cases n <;> cases g <;> cases i <;> cases e <;>
    simp [firstMissingField, required_fields, List.find?, hasField]

theorem validateUsers_eq_none_iff (u1 u2 : Profile) :
    validateUsers u1 u2 = none ↔
      firstMissingField u1 = none ∧ firstMissingField u2 = none := by
  unfold validateUsers
  cases h : firstMissingField u1 <;> simp [h]

theorem validateUsers_some_mem {u1 u2 : Profile} {f : PyStr}
    (h : validateUsers u1 u2 = some f) : f ∈ required_fields := by
  unfold validateUsers at h
  cases h1 : firstMissingField u1 with
  | some g => rw [h1] at h; cases h; exact List.mem_of_find?_eq_some h1
  | none => rw [h1] at h; exact List.mem_of_find?_eq_some h

theorem listIndex_of_mem {e : PyStr} (h : e ∈ experience_levels) :
    listIndex experience_levels e = Except.ok (experience_levels.indexOf e) := by
  fin_cases h <;> decide

theorem basic_eval (u1 u2 : Profile) (g1 g2 : List PyStr) (e1 e2 l1 l2 : PyStr)
    (hg1 : u1.genres = some g1) (hg2 : u2.genres = some g2)
    (he1 : u1.experience = some e1) (he2 : u2.experience = some e2)
    (hm1 : e1 ∈ experience_levels) (hm2 : e2 ∈ experience_levels)
    (hl1 : u1.location = some l1) (hl2 : u2.location = some l2) :
    calculate_basic_compatibility u1 u2 = Except.ok
      (min (min ((commonGenres g1 g2).length * 10) 30 +
            (if ((experience_levels.indexOf e1 : Int) - (experience_levels.indexOf e2 : Int)).natAbs = 0 then 20
             else if ((experience_levels.indexOf e1 : Int) - (experience_levels.indexOf e2 : Int)).natAbs = 1 then 10
             else 5) +
            (if pyLower l1 = pyLower l2 then 50 else 10)) 100) := by
  simp [calculate_basic_compatibility, getField, hg1, hg2, he1, he2, hl1, hl2,
        listIndex_of_mem hm1, listIndex_of_mem hm2, bind, Except.bind, pure, Except.pure]

theorem reasoning_eval (u1 u2 : Profile) (g1 g2 : List PyStr) (n1 n2 e1 e2 l1 l2 : PyStr)
    (score : Nat)
    (hg1 : u1.genres = some g1) (hg2 : u2.genres = some g2)
    (hn1 : u1.name = some n1) (hn2 : u2.name = some n2)
    (he1 : u1.experience = some e1) (he2 : u2.experience = some e2)
    (hl1 : u1.location = some l1) (hl2 : u2.location = some l2) :
    generate_basic_reasoning u1 u2 score = Except.ok
      ("Compatibility analysis for ".data ++ n1 ++ " and ".data ++ n2 ++ ":\n".data ++
        "- Shared musical genres: ".data ++
          (if commonGenres g1 g2 ≠ [] then pyJoin ", ".data (commonGenres g1 g2)
           else "None".data) ++ "\n".data ++
        "- Experience levels: ".data ++ e1 ++ " and ".data ++ e2 ++ "\n".data ++
        "- Location compatibility: ".data ++
          (if pyLower l1 = pyLower l2 then "Same city".data else "Different locations".data) ++
          "\n".data ++
        "- Overall compatibility score: ".data ++ natToChars score ++ "/100".data) := by
  simp [generate_basic_reasoning, getField, hg1, hg2, hn1, hn2, he1, he2, hl1, hl2,
        bind, Except.bind, pure, Except.pure]

theorem fallback_ok (ml : Bool) (aiText : Except PyStr PyStr) (u1 u2 : Profile)
    (hval : validateUsers u1 u2 = none)
    (h1 : algReady u1 = true) (h2 : algReady u2 = true)
    (hfail : ml = false ∨ ∃ e, aiText = Except.error e) :
    ∃ s r, calculate_basic_compatibility u1 u2 = Except.ok s ∧
      generate_basic_reasoning u1 u2 s = Except.ok r ∧
      calculate_compatibility ml aiText u1 u2 =
        HttpResponse.ok ⟨(s : Int), r, "algorithmic_fallback".data, true⟩ := by
  have hmiss1 : firstMissingField u1 = none := ((validateUsers_eq_none_iff u1 u2).mp hval).1
  have hmiss2 : firstMissingField u2 = none := ((validateUsers_eq_none_iff u1 u2).mp hval).2
  obtain ⟨hn1, hg1, hi1, he1⟩ := (firstMissingField_eq_none_iff u1).mp hmiss1
  obtain ⟨hn2, hg2, hi2, he2⟩ := (firstMissingField_eq_none_iff u2).mp hmiss2
  obtain ⟨n1, hn1⟩ := Option.isSome_iff_exists.mp hn1
  obtain ⟨n2, hn2⟩ := Option.isSome_iff_exists.mp hn2
  obtain ⟨g1, hg1⟩ := Option.isSome_iff_exists.mp hg1
  obtain ⟨g2, hg2⟩ := Option.isSome_iff_exists.mp hg2
  obtain ⟨e1, he1'⟩ : ∃ e, u1.experience = some e := by
    cases hx : u1.experience with
    | none => rw [hx] at he1; simp at he1
    | some e => exact ⟨e, rfl⟩
  obtain ⟨e2, he2'⟩ : ∃ e, u2.experience = some e := by
    cases hx : u2.experience with
    | none => rw [hx] at he2; simp at he2
    | some e => exact ⟨e, rfl⟩
  unfold algReady at h1 h2
  rw [he1'] at h1
  rw [he2'] at h2
  simp only [Bool.and_eq_true] at h1 h2
  obtain ⟨hm1, hloc1⟩ := h1
  obtain ⟨hm2, hloc2⟩ := h2
  obtain ⟨l1, hl1⟩ := Option.isSome_iff_exists.mp hloc1
  obtain ⟨l2, hl2⟩ := Option.isSome_iff_exists.mp hloc2
  have hm1' : e1 ∈ experience_levels := by simpa using hm1
  have hm2' : e2 ∈ experience_levels := by simpa using hm2
  refine ⟨_, _, basic_eval u1 u2 g1 g2 e1 e2 l1 l2 hg1 hg2 he1' he2' hm1' hm2' hl1 hl2,
    reasoning_eval u1 u2 g1 g2 n1 n2 e1 e2 l1 l2 _ hg1 hg2 hn1 hn2 he1' he2' hl1 hl2, ?_⟩
  unfold calculate_compatibility
  rw [hval]
  rcases hfail with hml | ⟨e, hai⟩
  · subst hml
    simp [basic_eval u1 u2 g1 g2 e1 e2 l1 l2 hg1 hg2 he1' he2' hm1' hm2' hl1 hl2,
          reasoning_eval u1 u2 g1 g2 n1 n2 e1 e2 l1 l2 _ hg1 hg2 hn1 hn2 he1' he2' hl1 hl2]
  · subst hai
    simp [calculate_ai_compatibility,
          basic_eval u1 u2 g1 g2 e1 e2 l1 l2 hg1 hg2 he1' he2' hm1' hm2' hl1 hl2,
          reasoning_eval u1 u2 g1 g2 n1 n2 e1 e2 l1 l2 _ hg1 hg2 hn1 hn2 he1' he2' hl1 hl2]


theorem pySet_eq_of_mem_iff {g g' : List PyStr} (h : ∀ x, x ∈ g ↔ x ∈ g') :
    pySet g = pySet g' := by
  have hd : List.Perm g.dedup g'.dedup := by
    rw [List.perm_ext_iff_of_nodup (List.nodup_dedup g) (List.nodup_dedup g')]
    intro a
    simp only [List.mem_dedup]
    exact h a
  have hperm : List.Perm (pySet g) (pySet g') :=
    (List.perm_insertionSort (fun a b => a ≤ b) g.dedup).trans
      (hd.trans (List.perm_insertionSort (fun a b => a ≤ b) g'.dedup).symm)
  exact List.eq_of_perm_of_sorted hperm
    (List.sorted_insertionSort (fun a b => a ≤ b) g.dedup)
    (List.sorted_insertionSort (fun a b => a ≤ b) g'.dedup)

theorem mem_pySet {x : PyStr} {g : List PyStr} : x ∈ pySet g ↔ x ∈ g := by
  unfold pySet
  rw [List.mem_insertionSort, List.mem_dedup]

theorem commonGenres_congr {g1 g1' g2 g2' : List PyStr}
    (h1 : ∀ x, x ∈ g1 ↔ x ∈ g1') (h2 : ∀ x, x ∈ g2 ↔ x ∈ g2') :
    commonGenres g1 g2 = commonGenres g1' g2' := by
  unfold commonGenres
  rw [pySet_eq_of_mem_iff h1]
  apply List.filter_congr
  intro x hx
  rw [Bool.eq_iff_iff]
  simp [h2 x]

theorem commonGenres_self (g : List PyStr) : commonGenres g g = pySet g := by
  unfold commonGenres
  rw [List.filter_eq_self]
  intro x hx
  have : x ∈ g := mem_pySet.mp hx
  simpa using this


theorem bind_ok_inv {ε α β : Type} {x : Except ε α} {f : α → Except ε β} {b : β}
    (h : x >>= f = Except.ok b) : ∃ a, x = Except.ok a ∧ f a = Except.ok b := by
  cases x with
  | ok a => exact ⟨a, rfl, h⟩
  | error e => exact absurd h (by simp [bind, Except.bind])

theorem scoreStep_of_not_score {l : PyStr}
    (h : pyStartsWith (pyStrip l) "SCORE:".data = false) (s : Int) : scoreStep s l = s := by
  simp [scoreStep, h]

theorem scoreStep_mem (s : Int) (l : PyStr) (h1 : 1 ≤ s) (h2 : s ≤ 100) :
    1 ≤ scoreStep s l ∧ scoreStep s l ≤ 100 := by
  unfold scoreStep
  dsimp only
  split
  · split
    · omega
    · exact ⟨h1, h2⟩
  · exact ⟨h1, h2⟩

theorem parseLoop_append (all : List PyStr) (pre rest : List PyStr) (s : Int)
    (h : ∀ l ∈ pre, pyStartsWith (pyStrip l) "REASONING:".data = false) :
    parseLoop all (pre ++ rest) s = parseLoop all rest (pre.foldl scoreStep s) := by
  induction pre generalizing s with
  | nil => simp
  | cons l pre ih =>
    have hl := h l (by simp)
    have hrest : ∀ x ∈ pre, pyStartsWith (pyStrip x) "REASONING:".data = false :=
      fun x hx => h x (by simp [hx])
    by_cases hS : pyStartsWith (pyStrip l) "SCORE:".data = true
    · simp only [List.cons_append, parseLoop, hS, if_true, List.foldl_cons]
      exact ih _ hrest
    · have hS' : pyStartsWith (pyStrip l) "SCORE:".data = false := by
        simpa using hS
      simp only [List.cons_append, parseLoop, hS', hl, Bool.false_eq_true, if_false,
        List.foldl_cons, scoreStep_of_not_score hS']
      exact ih _ hrest

theorem parseLoop_nil (all : List PyStr) (s : Int) :
    parseLoop all [] s = some (s, fallbackReasoning) := rfl

theorem parseLoop_no_reasoning (all ls : List PyStr) (s : Int)
    (h : ∀ l ∈ ls, pyStartsWith (pyStrip l) "REASONING:".data = false) :
    parseLoop all ls s = some (ls.foldl scoreStep s, fallbackReasoning) := by
  have := parseLoop_append all ls [] s h
  simpa [parseLoop_nil] using this

theorem parseLoop_score_const (all ls : List PyStr) (s : Int)
    (h : ∀ l ∈ ls, pyStartsWith (pyStrip l) "SCORE:".data = false) :
    ∀ p, parseLoop all ls s = some p → p.1 = s := by
  induction ls with
  | nil => intro p hp; rw [parseLoop_nil] at hp; cases hp; rfl
  | cons l rest ih =>
    intro p hp
    have hS := h l (by simp)
    have hrest : ∀ x ∈ rest, pyStartsWith (pyStrip x) "SCORE:".data = false :=
      fun x hx => h x (by simp [hx])
    rw [parseLoop] at hp
    rw [hS] at hp
    simp only [Bool.false_eq_true, if_false] at hp
    by_cases hR : pyStartsWith (pyStrip l) "REASONING:".data = true
    · rw [hR] at hp
      simp only [if_true] at hp
      cases hidx : (all.indexOf? (pyStrip l)) with
      | some i => rw [hidx] at hp; cases hp; rfl
      | none => rw [hidx] at hp; cases hp
    · have hR' : pyStartsWith (pyStrip l) "REASONING:".data = false := by simpa using hR
      rw [hR'] at hp
      simp only [Bool.false_eq_true, if_false] at hp
      exact ih hrest p hp

theorem parseLoop_bounds (all ls : List PyStr) (s : Int) (h1 : 1 ≤ s) (h2 : s ≤ 100) :
    ∀ p, parseLoop all ls s = some p → 1 ≤ p.1 ∧ p.1 ≤ 100 := by
  induction ls generalizing s with
  | nil => intro p hp; rw [parseLoop_nil] at hp; cases hp; exact ⟨h1, h2⟩
  | cons l rest ih =>
    intro p hp
    rw [parseLoop] at hp
    by_cases hS : pyStartsWith (pyStrip l) "SCORE:".data = true
    · rw [hS] at hp
      simp only [if_true] at hp
      obtain ⟨hb1, hb2⟩ := scoreStep_mem s l h1 h2
      exact ih _ hb1 hb2 p hp
    · have hS' : pyStartsWith (pyStrip l) "SCORE:".data = false := by simpa using hS
      rw [hS'] at hp
      simp only [Bool.false_eq_true, if_false] at hp
      by_cases hR : pyStartsWith (pyStrip l) "REASONING:".data = true
      · rw [hR] at hp
        simp only [if_true] at hp
        cases hidx : (all.indexOf? (pyStrip l)) with
        | some i => rw [hidx] at hp; cases hp; exact ⟨h1, h2⟩
        | none => rw [hidx] at hp; cases hp
      · have hR' : pyStartsWith (pyStrip l) "REASONING:".data = false := by simpa using hR
        rw [hR'] at hp
        simp only [Bool.false_eq_true, if_false] at hp
        exact ih _ h1 h2 p hp

theorem indexOf?_append_cons {a : PyStr} (pre post : List PyStr) (h : a ∉ pre) :
    (pre ++ a :: post).indexOf? a = some pre.length := by
  induction pre with
  | nil => simp [List.indexOf?_cons]
  | cons x pre ih =>
    have hxa : (x == a) = false := by
      have : x ≠ a := fun hx => h (by simp [hx])
      simpa using this
    have hnot : a ∉ pre := fun hm => h (List.mem_cons_of_mem _ hm)
    simp [List.indexOf?_cons, hxa, ih hnot]

theorem parseLoop_reasoning_hit (pre post rest : List PyStr) (l : PyStr) (s : Int)
    (hS : pyStartsWith (pyStrip l) "SCORE:".data = false)
    (hR : pyStartsWith (pyStrip l) "REASONING:".data = true)
    (hstrip : pyStrip l = l) (hnotin : l ∉ pre) :
    parseLoop (pre ++ l :: post) (l :: rest) s =
      some (s,
        if post ≠ [] then
          pyStrip (pyErase l "REASONING:".data) ++ " ".data ++ pyStrip (pyJoin " ".data post)
        else pyStrip (pyErase l "REASONING:".data)) := by
  have hidx : (pre ++ l :: post).indexOf? l = some pre.length :=
    indexOf?_append_cons pre post hnotin
  have hdrop : (pre ++ l :: post).drop (pre.length + 1) = post := by
    have heq : pre ++ l :: post = (pre ++ [l]) ++ post := by simp
    rw [heq, List.drop_left' (by simp)]
  rw [parseLoop, hstrip]
  rw [hstrip] at hS hR
  simp only [hS, Bool.false_eq_true, if_false, hR, if_true, hidx, hdrop]


/-! ## Claims -/

/-- Claim C3: for every pair of profiles whose experience values are among the
four recognized levels and which both carry a location (and genres), the
algorithmic score is the genre component `min(10·|shared genres|, 30)` plus
the experience component (20 / 10 / 5 for index distance 0 / 1 / ≥ 2) plus
the location component, the sum clamped from above to 100. -/
theorem C3_claim (u1 u2 : Profile) (g1 g2 : List PyStr) (e1 e2 l1 l2 : PyStr)
    (hg1 : u1.genres = some g1) (hg2 : u2.genres = some g2)
    (he1 : u1.experience = some e1) (he2 : u2.experience = some e2)
    (hm1 : e1 ∈ experience_levels) (hm2 : e2 ∈ experience_levels)
    (hl1 : u1.location = some l1) (hl2 : u2.location = some l2) :
    calculate_basic_compatibility u1 u2 = Except.ok
      (min (min ((commonGenres g1 g2).length * 10) 30 +
            (if ((experience_levels.indexOf e1 : Int) - (experience_levels.indexOf e2 : Int)).natAbs = 0 then 20
             else if ((experience_levels.indexOf e1 : Int) - (experience_levels.indexOf e2 : Int)).natAbs = 1 then 10
             else 5) +
            (if pyLower l1 = pyLower l2 then 50 else 10)) 100) :=
  basic_eval u1 u2 g1 g2 e1 e2 l1 l2 hg1 hg2 he1 he2 hm1 hm2 hl1 hl2

/-- Witness for C3: on the repository's own fixtures Alice and Bob the formula
gives 80, matching `test_calculate_basic_compatibility_high_score`. -/
theorem C3_witness : calculate_basic_compatibility alice bob = Except.ok 80 := by
  have h := C3_claim alice bob ["Rock".data, "Pop".data] ["Rock".data, "Jazz".data]
    "intermediate".data "intermediate".data "New York".data "New York".data
    rfl rfl rfl rfl (by decide) (by decide) rfl rfl
  rw [h]
  decide

/-- Claim C4 counterexample: the algorithmic scorer is not total when a
location is missing — on an otherwise valid location-less profile it raises
`KeyError` instead of scoring the location component as 10. -/
theorem C4_counterexample :
    validateUsers fay bob = none ∧
    calculate_basic_compatibility fay bob = Except.error "KeyError: location".data := by
  constructor
  · decide
  · decide

/-- Claim C4 (amended): with both locations present the location component is
50 exactly when the two strings match case-insensitively and 10 otherwise;
but when either location is missing the scorer raises `KeyError` (surfaced by
the endpoint as a 500) rather than scoring the mismatch as 10. -/
theorem C4_claim (u1 u2 : Profile) (g1 g2 : List PyStr) (e1 e2 : PyStr)
    (hg1 : u1.genres = some g1) (hg2 : u2.genres = some g2)
    (he1 : u1.experience = some e1) (he2 : u2.experience = some e2)
    (hm1 : e1 ∈ experience_levels) (hm2 : e2 ∈ experience_levels) :
    (∀ l1 l2, u1.location = some l1 → u2.location = some l2 →
      calculate_basic_compatibility u1 u2 = Except.ok
        (min (min ((commonGenres g1 g2).length * 10) 30 +
          (if ((experience_levels.indexOf e1 : Int) - (experience_levels.indexOf e2 : Int)).natAbs = 0 then 20
           else if ((experience_levels.indexOf e1 : Int) - (experience_levels.indexOf e2 : Int)).natAbs = 1 then 10
           else 5) +
          (if pyLower l1 = pyLower l2 then 50 else 10)) 100)) ∧
    (u1.location = none →
      calculate_basic_compatibility u1 u2 = Except.error "KeyError: location".data) ∧
    (∀ l1, u1.location = some l1 → u2.location = none →
      calculate_basic_compatibility u1 u2 = Except.error "KeyError: location".data) := by
  refine ⟨?_, ?_, ?_⟩
  · intro l1 l2 hl1 hl2
    exact basic_eval u1 u2 g1 g2 e1 e2 l1 l2 hg1 hg2 he1 he2 hm1 hm2 hl1 hl2
  · intro hl1
    simp [calculate_basic_compatibility, getField, hg1, hg2, he1, he2, hl1,
      listIndex_of_mem hm1, listIndex_of_mem hm2, bind, Except.bind]
  · intro l1 hl1 hl2
    simp [calculate_basic_compatibility, getField, hg1, hg2, he1, he2, hl1, hl2,
      listIndex_of_mem hm1, listIndex_of_mem hm2, bind, Except.bind]

/-- Witness for C4: a concrete missing-location profile makes the scorer
raise. -/
theorem C4_witness :
    calculate_basic_compatibility fay charlie = Except.error "KeyError: location".data :=
  (C4_claim fay charlie ["Pop".data] ["Classical".data, "Folk".data]
    "beginner".data "professional".data rfl rfl rfl rfl (by decide) (by decide)).2.1 rfl

/-- Claim C5 counterexample: a profile missing only `location` passes
validation (no 400 naming it), and the algorithmic path then yields a 500 —
`location` is not among the checked required fields. -/
theorem C5_counterexample :
    dana.location = none ∧
    validateUsers dana bob = none ∧
    calculate_compatibility false (Except.error "down".data) dana bob =
      HttpResponse.error 500 "Internal server error".data := by
  refine ⟨rfl, by decide, by decide⟩

/-- Claim C5 (amended): validation checks, in order, only
`[name, genres, instruments, experience]` — all of user1's before user2's —
and fails with 400 `Missing required field: <f>` naming the first missing one,
which is never `location`; a profile missing only `location` passes
validation. -/
theorem C5_claim (ml : Bool) (aiText : Except PyStr PyStr) (u1 u2 : Profile) :
    (∀ f, validateUsers u1 u2 = some f →
      calculate_compatibility ml aiText u1 u2 =
        HttpResponse.error 400 ("Missing required field: ".data ++ f) ∧
      f ∈ required_fields ∧ f ≠ "location".data) ∧
    (validateUsers u1 u2 = none ↔
      (u1.name.isSome ∧ u1.genres.isSome ∧ u1.instruments.isSome ∧ u1.experience.isSome ∧
       u2.name.isSome ∧ u2.genres.isSome ∧ u2.instruments.isSome ∧ u2.experience.isSome)) := by
  constructor
  · intro f hf
    refine ⟨?_, validateUsers_some_mem hf, ?_⟩
    · unfold calculate_compatibility
      rw [hf]
    · intro hloc
      subst hloc
      exact absurd (validateUsers_some_mem hf) (by decide)
  · rw [validateUsers_eq_none_iff, firstMissingField_eq_none_iff, firstMissingField_eq_none_iff]
    tauto

/-- Witness for C5: a profile missing `genres` is rejected with the matching
message. -/
theorem C5_witness :
    calculate_compatibility false (Except.error "down".data) gus bob =
      HttpResponse.error 400 ("Missing required field: ".data ++ "genres".data) ∧
    "genres".data ∈ required_fields ∧ "genres".data ≠ "location".data :=
  (C5_claim false (Except.error "down".data) gus bob).1 "genres".data (by decide)

/-- Claim C9 counterexample: a profile with three distinct genres scores 100
against itself, not 90 — "at least 2 genres" does not pin the genre component
at 20. -/
theorem C9_counterexample :
    calculate_basic_compatibility tri tri = Except.ok 100 ∧ (100 : Nat) ≠ 90 := by
  refine ⟨by decide, by decide⟩

/-- Claim C9 (amended): a profile with exactly two distinct genres, a
recognized experience level and a location scores 90 against itself
(20 genre + 20 experience + 50 location); with three or more distinct genres
the genre cap of 30 makes the self-score 100. -/
theorem C9_claim (u : Profile) (g : List PyStr) (e l : PyStr)
    (hg : u.genres = some g) (he : u.experience = some e) (hm : e ∈ experience_levels)
    (hl : u.location = some l) :
    ((pySet g).length = 2 → calculate_basic_compatibility u u = Except.ok 90) ∧
    (3 ≤ (pySet g).length → calculate_basic_compatibility u u = Except.ok 100) := by
  have heval := basic_eval u u g g e e l l hg hg he he hm hm hl hl
  rw [commonGenres_self] at heval
  simp only [sub_self, Int.natAbs_zero, reduceIte, eq_self_iff_true, if_true] at heval
  constructor
  · intro hlen
    rw [heval, hlen]
    decide
  · intro hlen
    rw [heval]
    have h30 : min ((pySet g).length * 10) 30 = 30 := by omega
    rw [h30]
    decide

/-- Witness for C9: Alice (genres Rock, Pop) scores 90 against herself, and
the three-genre profile scores 100. -/
theorem C9_witness :
    calculate_basic_compatibility alice alice = Except.ok 90 ∧
    calculate_basic_compatibility tri tri = Except.ok 100 := by
  constructor
  · exact (C9_claim alice ["Rock".data, "Pop".data] "intermediate".data "New York".data
      rfl rfl (by decide) rfl).1 (by decide)
  · exact (C9_claim tri ["Rock".data, "Pop".data, "Jazz".data] "intermediate".data
      "New York".data rfl rfl (by decide) rfl).2 (by decide)

/-- Claim C10: the algorithmic score and the reasoning text depend on each
profile's genres only through the underlying set — replacing either genres
list by any list with the same members (reordered or with duplicates) changes
neither; in particular a genre listed twice in both profiles contributes at
most one 10-point increment. -/
theorem C10_claim (u1 u2 : Profile) (g1 g1' g2 g2' : List PyStr) (s : Nat)
    (h1 : ∀ x, x ∈ g1 ↔ x ∈ g1') (h2 : ∀ x, x ∈ g2 ↔ x ∈ g2') :
    calculate_basic_compatibility { u1 with genres := some g1 } { u2 with genres := some g2 } =
      calculate_basic_compatibility { u1 with genres := some g1' } { u2 with genres := some g2' } ∧
    generate_basic_reasoning { u1 with genres := some g1 } { u2 with genres := some g2 } s =
      generate_basic_reasoning { u1 with genres := some g1' } { u2 with genres := some g2' } s := by
  have hc := commonGenres_congr h1 h2
  constructor
  · unfold calculate_basic_compatibility
    dsimp only [getField, bind, Except.bind]
    rw [hc]
  · unfold generate_basic_reasoning
    dsimp only [getField, bind, Except.bind]
    rw [hc]

/-- Witness for C10: duplicating `Rock` in both genre lists leaves both score
and reasoning unchanged. -/
theorem C10_witness :
    calculate_basic_compatibility { alice with genres := some ["Rock".data, "Rock".data] }
        { bob with genres := some ["Rock".data, "Rock".data] } =
      calculate_basic_compatibility { alice with genres := some ["Rock".data] }
        { bob with genres := some ["Rock".data] } ∧
    generate_basic_reasoning { alice with genres := some ["Rock".data, "Rock".data] }
        { bob with genres := some ["Rock".data, "Rock".data] } 50 =
      generate_basic_reasoning { alice with genres := some ["Rock".data] }
        { bob with genres := some ["Rock".data] } 50 :=
  C10_claim alice bob ["Rock".data, "Rock".data] ["Rock".data]
    ["Rock".data, "Rock".data] ["Rock".data] 50 (fun x => by simp) (fun x => by simp)


/-- Claim C1 counterexample: a request whose profiles pass validation but lack
`location` gets a 500 error — not the labelled algorithmic result — when the
AI call fails, because the fallback itself raises. -/
theorem C1_counterexample :
    validateUsers dana dana = none ∧
    calculate_compatibility true (Except.error "inference failed".data) dana dana =
      HttpResponse.error 500 "Internal server error".data := by
  refine ⟨by decide, by decide⟩

/-- Claim C1 (amended): for profiles that pass validation and on which the
algorithmic scorer is defined (recognized experience level, present
location): if the model is unavailable or the AI call raises, the response is
the algorithmic score labelled `model_used = algorithmic_fallback`,
`fallback_used = true`; if the model is loaded and the AI call succeeds, the
response carries the parsed score/reasoning labelled
`model_used = mistral_ai`, `fallback_used = false`. -/
theorem C1_claim (ml : Bool) (aiText : Except PyStr PyStr) (u1 u2 : Profile)
    (hval : validateUsers u1 u2 = none)
    (h1 : algReady u1 = true) (h2 : algReady u2 = true) :
    ((ml = false ∨ ∃ e, aiText = Except.error e) →
      ∃ s r, calculate_basic_compatibility u1 u2 = Except.ok s ∧
        calculate_compatibility ml aiText u1 u2 =
          HttpResponse.ok ⟨(s : Int), r, "algorithmic_fallback".data, true⟩) ∧
    (∀ t, aiText = Except.ok t → ml = true →
      calculate_compatibility ml aiText u1 u2 =
        HttpResponse.ok ⟨(parse_ai_response (pyStrip t)).1, (parse_ai_response (pyStrip t)).2,
          "mistral_ai".data, false⟩) := by
  constructor
  · intro hfail
    obtain ⟨s, r, hs, _, hres⟩ := fallback_ok ml aiText u1 u2 hval h1 h2 hfail
    exact ⟨s, r, hs, hres⟩
  · intro t ht hml
    subst ht
    subst hml
    rcases hp : parse_ai_response (pyStrip t) with ⟨ps, pr⟩
    unfold calculate_compatibility
    rw [hval]
    simp [calculate_ai_compatibility, hp]

/-- Witness for C1: with the model unavailable, Alice and Bob get the
algorithmic result with the fallback labels. -/
theorem C1_witness :
    ∃ s r, calculate_basic_compatibility alice bob = Except.ok s ∧
      calculate_compatibility false (Except.error "down".data) alice bob =
        HttpResponse.ok ⟨(s : Int), r, "algorithmic_fallback".data, true⟩ :=
  (C1_claim false (Except.error "down".data) alice bob (by decide) (by decide)
    (by decide)).1 (Or.inl rfl)

/-- Claim C2 counterexample: a profile whose experience value is unrecognized
passes presence validation, and with the AI path failing the request returns
a 500 error — an error after validation that is not a validation error. -/
theorem C2_counterexample :
    validateUsers eve eve = none ∧
    calculate_compatibility true (Except.error "model timeout".data) eve eve =
      HttpResponse.error 500 "Internal server error".data := by
  refine ⟨by decide, by decide⟩

/-- Claim C2 (amended): an AI failure is caught and is itself never surfaced;
for validation-passing profiles on which the algorithmic fallback is defined,
no error response is produced whatever the AI outcome.  (When the fallback
itself raises — missing location or unrecognized experience — the endpoint
returns a 500, so errors after validation are possible, contrary to the
original claim.) -/
theorem C2_claim (ml : Bool) (aiText : Except PyStr PyStr) (u1 u2 : Profile)
    (hval : validateUsers u1 u2 = none)
    (h1 : algReady u1 = true) (h2 : algReady u2 = true) :
    ∃ body, calculate_compatibility ml aiText u1 u2 = HttpResponse.ok body := by
  rcases aiText with e | t
  · obtain ⟨s, r, _, _, hres⟩ :=
      fallback_ok ml (Except.error e) u1 u2 hval h1 h2 (Or.inr ⟨e, rfl⟩)
    exact ⟨_, hres⟩
  · cases ml with
    | false =>
      obtain ⟨s, r, _, _, hres⟩ :=
        fallback_ok false (Except.ok t) u1 u2 hval h1 h2 (Or.inl rfl)
      exact ⟨_, hres⟩
    | true =>
      rcases hp : parse_ai_response (pyStrip t) with ⟨ps, pr⟩
      refine ⟨⟨ps, pr, "mistral_ai".data, false⟩, ?_⟩
      unfold calculate_compatibility
      rw [hval]
      simp [calculate_ai_compatibility, hp]

/-- Witness for C2: an inference failure on valid full profiles still yields
a 200 body. -/
theorem C2_witness :
    ∃ body, calculate_compatibility true (Except.error "boom".data) alice charlie =
      HttpResponse.ok body :=
  C2_claim true (Except.error "boom".data) alice charlie (by decide) (by decide) (by decide)

/-- Claim C6 counterexample: with two SCORE lines before the REASONING line
the parser returns the last one (20), not the first (10). -/
theorem C6_counterexample :
    parse_ai_response "SCORE: 10\nSCORE: 20\nREASONING: x".data = (20, "x".data) ∧
    ((20 : Int), "x".data) ≠ ((10 : Int), "x".data) := by
  refine ⟨by decide, by decide⟩

/-- Claim C6 (amended): every `SCORE:` line overwrites the running score
(folding `scoreStep`, which extracts the first signed integer of the line's
remainder and clamps it to [1,100]), so the last `SCORE:` line before the
first `REASONING:` line determines the result; `SCORE: 150` still parses to
100 and `SCORE: -10` to 1. -/
theorem C6_claim :
    (∀ (all pre rest : List PyStr) (s : Int),
      (∀ l ∈ pre, pyStartsWith (pyStrip l) "REASONING:".data = false) →
      parseLoop all (pre ++ rest) s = parseLoop all rest (pre.foldl scoreStep s)) ∧
    parse_ai_response "SCORE: 150\nREASONING: x".data = (100, "x".data) ∧
    parse_ai_response "SCORE: -10\nREASONING: y".data = (1, "y".data) ∧
    parse_ai_response "SCORE: 10\nSCORE: 20\nREASONING: x".data = (20, "x".data) :=
  ⟨parseLoop_append, by decide, by decide, by decide⟩

/-- Witness for C6: one concrete SCORE-line prefix folds into the running
score. -/
theorem C6_witness :
    parseLoop ["SCORE: 5".data, "REASONING: z".data]
        (["SCORE: 5".data] ++ ["REASONING: z".data]) 50 =
      parseLoop ["SCORE: 5".data, "REASONING: z".data] ["REASONING: z".data]
        (["SCORE: 5".data].foldl scoreStep 50) :=
  C6_claim.1 ["SCORE: 5".data, "REASONING: z".data] ["SCORE: 5".data]
    ["REASONING: z".data] 50 (by decide)

/-- Claim C7 counterexample: an input whose only REASONING line carries
leading whitespace makes the internal `lines.index(line)` lookup fail, so the
parser returns both defaults instead of the parsed reasoning `hi`. -/
theorem C7_counterexample :
    parse_ai_response " REASONING: hi".data = (50, fallbackReasoning) ∧
    "hi".data ≠ fallbackReasoning := by
  refine ⟨by decide, by decide⟩

/-- Claim C7 (amended): the parser is total and its defaults apply per field —
no SCORE line means score 50; no REASONING line means the default reasoning
with the folded score; and a REASONING line equal to its stripped form (no
surrounding whitespace) yields the parsed reasoning with the score folded
over the preceding lines.  When the first REASONING line differs from its
stripped form, the internal index lookup fails and both defaults are
returned. -/
theorem C7_claim (response : PyStr) :
    ((∀ l ∈ pySplit '\n' response, pyStartsWith (pyStrip l) "SCORE:".data = false) →
      (parse_ai_response response).1 = 50) ∧
    ((∀ l ∈ pySplit '\n' response, pyStartsWith (pyStrip l) "REASONING:".data = false) →
      parse_ai_response response =
        ((pySplit '\n' response).foldl scoreStep 50, fallbackReasoning)) ∧
    (∀ pre l post, pySplit '\n' response = pre ++ l :: post →
      (∀ p ∈ pre, pyStartsWith (pyStrip p) "REASONING:".data = false) →
      pyStrip l = l → pyStartsWith l "SCORE:".data = false →
      pyStartsWith l "REASONING:".data = true → l ∉ pre →
      parse_ai_response response =
        (pre.foldl scoreStep 50,
          if post ≠ [] then
            pyStrip (pyErase l "REASONING:".data) ++ " ".data ++ pyStrip (pyJoin " ".data post)
          else pyStrip (pyErase l "REASONING:".data))) := by
  refine ⟨?_, ?_, ?_⟩
  · intro h
    unfold parse_ai_response
    cases hp : parseLoop (pySplit '\n' response) (pySplit '\n' response) 50 with
    | some p =>
      have hps := parseLoop_score_const _ _ 50 h p hp
      exact hps
    | none => rfl
  · intro h
    unfold parse_ai_response
    rw [parseLoop_no_reasoning _ _ 50 h]
  · intro pre l post hsplit hpre hstrip hS hR hnotin
    have hS' : pyStartsWith (pyStrip l) "SCORE:".data = false := by rw [hstrip]; exact hS
    have hR' : pyStartsWith (pyStrip l) "REASONING:".data = true := by rw [hstrip]; exact hR
    unfold parse_ai_response
    rw [hsplit, parseLoop_append _ pre (l :: post) 50 hpre,
      parseLoop_reasoning_hit pre post post l _ hS' hR' hstrip hnotin]

/-- Witness for C7: unstructured input yields the default score. -/
theorem C7_witness : (parse_ai_response "garbage".data).1 = 50 :=
  (C7_claim "garbage".data).1 (by decide)

/-- Claim C8: every score either path produces is in [1,100] — any `ok`
output of the algorithmic scorer, and the parsed score for every input text
(parsed values are clamped to [1,100] and the default is 50). -/
theorem C8_claim :
    (∀ u1 u2 : Profile, ∀ s : Nat, calculate_basic_compatibility u1 u2 = Except.ok s →
      1 ≤ s ∧ s ≤ 100) ∧
    (∀ response : PyStr,
      1 ≤ (parse_ai_response response).1 ∧ (parse_ai_response response).1 ≤ 100) := by
  constructor
  · intro u1 u2 s h
    unfold calculate_basic_compatibility at h
    dsimp only at h
    obtain ⟨g1, hg1, h⟩ := bind_ok_inv h
    obtain ⟨g2, hg2, h⟩ := bind_ok_inv h
    obtain ⟨e1, he1, h⟩ := bind_ok_inv h
    obtain ⟨i1, hi1, h⟩ := bind_ok_inv h
    obtain ⟨e2, he2, h⟩ := bind_ok_inv h
    obtain ⟨i2, hi2, h⟩ := bind_ok_inv h
    obtain ⟨l1, hl1, h⟩ := bind_ok_inv h
    obtain ⟨l2, hl2, h⟩ := bind_ok_inv h
    simp only [pure, Except.pure, Except.ok.injEq] at h
    subst h
    constructor
    · split_ifs <;> omega
    · omega
  · intro response
    unfold parse_ai_response
    cases hp : parseLoop (pySplit '\n' response) (pySplit '\n' response) 50 with
    | some p => exact parseLoop_bounds _ _ 50 (by omega) (by omega) p hp
    | none => exact ⟨by decide, by decide⟩

/-- Witness for C8: the concrete score 80 and a concrete parse lie in
range. -/
theorem C8_witness :
    (1 ≤ (80 : Nat) ∧ (80 : Nat) ≤ 100) ∧
    (1 ≤ (parse_ai_response "junk".data).1 ∧ (parse_ai_response "junk".data).1 ≤ 100) :=
  ⟨C8_claim.1 alice bob 80 (by decide), C8_claim.2 "junk".data⟩

end JamMatch
